import Mathlib

/-!
# Station search-and-ranking engine: a shallow embedding

This file embeds the client-side search/filter/sort core of the EV-Finder
web application (the `ChargerFinderPage` component and its helpers) into
Lean 4 and proves the specified properties about it.

Modelling conventions:
* JavaScript numbers that only ever carry exact decimal data (ratings,
  prices, coordinates, port counts) are modelled as `ℚ` (or `ℕ` for counts);
  the trigonometric distance computation is carried out over `ℝ`.
* The JavaScript value `Infinity` used by the pipeline for the distance of a
  station when `userLocation` is `null`, and as a possible `maxDistance`,
  is modelled by `⊤ : WithTop ℚ`.  The order on `WithTop ℚ` agrees with the
  IEEE comparison on `Infinity`: `⊤ ≤ q` is false for finite `q`, `q ≤ ⊤`
  and `⊤ ≤ ⊤` are true.
* `Array.prototype.sort` with a numeric comparator `c` is modelled as the
  stable `List.mergeSort` with the boolean relation "`c a b ≤ 0` (an element
  stays before the next one)"; ECMAScript requires `sort` to be stable.
-/

namespace EVFinder

/-! ## Data model (the `Station` interface of `ChargerFinderPage`) -/

structure Address where
  street : String
  city : String
  state : String
  zipCode : String
  country : String
deriving DecidableEq, Repr

structure ConnectorType where
  type : String
  power : ℚ
  count : ℕ
  available : ℕ
deriving DecidableEq, Repr

structure Pricing where
  perKwh : ℚ
  currency : String
deriving DecidableEq, Repr

structure Station where
  id : String
  name : String
  address : Address
  /-- `location.coordinates`, in provider order `[longitude, latitude]`. -/
  coordinates : ℚ × ℚ
  connectorTypes : List ConnectorType
  pricing : Pricing
  totalPorts : ℕ
  availablePorts : ℕ
  rating : ℚ
  amenities : List String
deriving DecidableEq, Repr

structure UserLocation where
  lat : ℚ
  lng : ℚ
deriving DecidableEq, Repr

/-! ## Availability classifier

```js
const getAvailabilityStatus = (available, total) => {
  if (available === 0) return 'unavailable';
  const ratio = available / total;
  if (ratio > 0.5) return 'available';
  return 'limited';
};
```
-/

inductive AvailabilityStatus where
  | available
  | limited
  | unavailable
deriving DecidableEq, Repr

def getAvailabilityStatus (available total : ℚ) : AvailabilityStatus :=
  if available = 0 then .unavailable
  else if available / total > 1/2 then .available
  else .limited

/-! ## Geo-distance calculator

Two sibling components each define a `calculateDistance(lat1, lon1, lat2, lon2)`
with the same haversine core (Earth radius 6371 km) and different display
conventions; we factor the shared numeric core out.
-/

/-- `Math.atan2 y x` (only the `x > 0` branch is ever exercised here, since it
is applied to non-negative square roots whose second component is positive). -/
noncomputable def atan2 (y x : ℝ) : ℝ :=
  if 0 < x then Real.arctan (y / x)
  else if x < 0 ∧ 0 ≤ y then Real.arctan (y / x) + Real.pi
  else if x < 0 then Real.arctan (y / x) - Real.pi
  else if 0 < y then Real.pi / 2
  else if y < 0 then -(Real.pi / 2)
  else 0

/-- The shared numeric core of both `calculateDistance` functions:
haversine great-circle distance in kilometres, Earth radius 6371 km. -/
noncomputable def haversineDistanceKm (lat1 lon1 lat2 lon2 : ℝ) : ℝ :=
  let R : ℝ := 6371
  let dLat := (lat2 - lat1) * Real.pi / 180
  let dLon := (lon2 - lon1) * Real.pi / 180
  let a := Real.sin (dLat/2) * Real.sin (dLat/2) +
    Real.cos (lat1 * Real.pi / 180) * Real.cos (lat2 * Real.pi / 180) *
    Real.sin (dLon/2) * Real.sin (dLon/2)
  let c := 2 * atan2 (Real.sqrt a) (Real.sqrt (1 - a))
  R * c

/-- `x.toFixed(0)` for the non-negative values produced here: round to the
nearest integer (JavaScript rounds the half-case away from zero, Mathlib's
`round` rounds it up; the two agree away from ties and on all values this
development evaluates). -/
noncomputable def toFixed0 (x : ℝ) : String :=
  toString (round x)

/-- `x.toFixed(1)` for the non-negative values produced here. -/
noncomputable def toFixed1 (x : ℝ) : String :=
  toString (round (x * 10) / 10) ++ "." ++ toString (round (x * 10) % 10)

/-- `calculateDistance` of `ChargerFinderPage` (kilometres/metres convention):

```js
if (distance < 1) { return `${(distance * 1000).toFixed(0)} m`; }
else { return `${distance.toFixed(1)} km`; }
```
-/
noncomputable def calculateDistanceKmM (lat1 lon1 lat2 lon2 : ℝ) : String :=
  let distance := haversineDistanceKm lat1 lon1 lat2 lon2
  if distance < 1 then toFixed0 (distance * 1000) ++ " m"
  else toFixed1 distance ++ " km"

/-- `calculateDistance` of the sibling home-screen component (miles/feet
convention):

```js
const miles = distance * 0.621371;
if (miles < 1) { return `${(miles * 5280).toFixed(0)} ft`; }
else { return `${miles.toFixed(1)} mi`; }
```
-/
noncomputable def calculateDistanceMiFt (lat1 lon1 lat2 lon2 : ℝ) : String :=
  let distance := haversineDistanceKm lat1 lon1 lat2 lon2
  let miles := distance * 0.621371
  if miles < 1 then toFixed0 (miles * 5280) ++ " ft"
  else toFixed1 miles ++ " mi"

/-! ## The numeric re-parse of the formatted distance

```js
const distanceValue = parseFloat(distance.replace(/[^\d.]/g, ''));
```
-/

/-- `s.replace(/[^\d.]/g, '')`: drop every character that is neither a digit
nor a dot. -/
def stripNonDigitDot (s : String) : String :=
  String.mk (s.toList.filter fun ch => ch.isDigit || ch == '.')

/-- Numeric value of a list of decimal digits (most significant first). -/
def parseNatDigits (l : List Char) : ℕ :=
  l.foldl (fun n ch => 10 * n + (ch.toNat - 48)) 0

/-- `parseFloat` on the digits-and-dots strings produced above: an optional
integer part, and everything after the first dot up to the next dot (if any)
as the fractional part — which is exactly how `parseFloat` reads `"1.2.3"`. -/
def parseFloatQ (s : String) : ℚ :=
  match s.toList.splitOn '.' with
  | [] => 0
  | [intPart] => (parseNatDigits intPart : ℚ)
  | intPart :: fracPart :: _ =>
    (parseNatDigits intPart : ℚ) + (parseNatDigits fracPart : ℚ) / 10 ^ fracPart.length

/-! ## Filter criteria and the derived station record -/

/-- The filter state of `ChargerFinderPage` that feeds `filteredChargers`. -/
structure FilterCriteria where
  debouncedSearchQuery : String
  selectedConnectorTypes : List String
  /-- `maxDistance` (km); `⊤` models `Infinity`. -/
  maxDistance : WithTop ℚ
  priceRange : ℚ × ℚ
  minRating : ℚ
deriving DecidableEq, Repr

/-- A station augmented by the pipeline's `.map` step.  When `userLocation`
is `null` the source stores the number `Infinity` in the string-typed
`distance` field; we model that placeholder as `none`. -/
structure DerivedStation where
  station : Station
  distance : Option String
  distanceValue : WithTop ℚ
deriving DecidableEq

/-! ## The filter predicate (the first `.filter` of `filteredChargers`) -/

/-- `haystack.includes(needle)`: substring containment (`''` is contained in
everything, as in JavaScript). -/
def jsIncludes (s pattern : String) : Bool :=
  decide (pattern.toList <:+: s.toList)

/-- The text-search block of the filter: case-insensitive substring match
against name, street, city, state, or any amenity; an empty (falsy) query
skips the block. -/
def matchesTextSearch (query : String) (charger : Station) : Bool :=
  if query = "" then true
  else
    let q := query.toLower
    let matchesName := jsIncludes charger.name.toLower q
    let matchesAddress := jsIncludes charger.address.street.toLower q ||
      jsIncludes charger.address.city.toLower q ||
      jsIncludes charger.address.state.toLower q
    let matchesAmenities := charger.amenities.any fun amenity =>
      jsIncludes amenity.toLower q
    matchesName || matchesAddress || matchesAmenities

/-- The whole predicate of the first `.filter`: text search, connector type,
rating, and price range, AND-combined exactly as the early returns are. -/
def stationFilterPred (crit : FilterCriteria) (charger : Station) : Bool :=
  matchesTextSearch crit.debouncedSearchQuery charger &&
  (crit.selectedConnectorTypes.isEmpty ||
    charger.connectorTypes.any fun connector =>
      crit.selectedConnectorTypes.contains connector.type) &&
  !(charger.rating < crit.minRating) &&
  (let normalizedPrice := min (charger.pricing.perKwh / 1) 1
   !(normalizedPrice < crit.priceRange.1) && !(normalizedPrice > crit.priceRange.2))

/-! ## The `.map` step: distance derivation -/

/-- The `.map((charger) => ...)` step of `filteredChargers`: when
`userLocation` is `null`, store the `Infinity` placeholders; otherwise format
the haversine distance (transposing the `[lng, lat]` pair into the
`(lat, lng)` argument order) and re-parse its numeric value from the string. -/
noncomputable def deriveDistance (userLocation : Option UserLocation)
    (charger : Station) : DerivedStation :=
  match userLocation with
  | none => ⟨charger, none, ⊤⟩
  | some u =>
    let distance := calculateDistanceKmM (u.lat : ℝ) (u.lng : ℝ)
      (charger.coordinates.2 : ℝ) (charger.coordinates.1 : ℝ)
    let distanceValue := parseFloatQ (stripNonDigitDot distance)
    ⟨charger, some distance, (distanceValue : WithTop ℚ)⟩

/-! ## Ranking -/

/-- The component's `sortBy` state:
`useState<'distance' | 'price' | 'rating' | 'availability'>('distance')`. -/
inductive SortKey where
  | distance
  | price
  | rating
  | availability
deriving DecidableEq, Repr

/-- The `switch (sortBy)` comparator of the final `.sort`, as the boolean
"no swap needed" relation: `comparator a b ≤ 0` (with the comparator's `NaN`
output for two infinite distances behaving like `0`, which is exactly
`⊤ ≤ ⊤` in `WithTop ℚ`).  The `availability` case falls through to the
`default:` branch, which repeats the `distance` comparison. -/
def sortComparatorLE (sortBy : SortKey) (a b : DerivedStation) : Bool :=
  match sortBy with
  | .distance => decide (a.distanceValue ≤ b.distanceValue)
  | .price => decide (a.station.pricing.perKwh ≤ b.station.pricing.perKwh)
  | .rating => decide (b.station.rating ≤ a.station.rating)
  | .availability => decide (a.distanceValue ≤ b.distanceValue)

/-- The final `.sort(...)`: a stable sort by the selected comparator. -/
def rankStations (sortBy : SortKey) (l : List DerivedStation) : List DerivedStation :=
  l.mergeSort (sortComparatorLE sortBy)

/-! ## The full pipeline -/

/-- `filteredChargers`:
`stations.filter(predicates).map(deriveDistance).filter(distance cutoff).sort(comparator)`. -/
noncomputable def filteredChargers (stations : List Station) (crit : FilterCriteria)
    (userLocation : Option UserLocation) (sortBy : SortKey) : List DerivedStation :=
  rankStations sortBy
    (((stations.filter (stationFilterPred crit)).map (deriveDistance userLocation)).filter
      fun charger => decide (charger.distanceValue ≤ crit.maxDistance))

/-! ## Refresh coordinator (`fetchStations`)

```js
const fetchStations = async (silent = false) => {
  try {
    if (!silent) { setLoading(true); }
    const response = await ApiService.getStations(searchParams);
    if (response.success) {
      setStations(response.data); setStationsError(null); setLastRefresh(new Date());
    } else {
      setStationsError('Failed to load charging stations');
    }
  } catch (error) {
    console.error(...);
    if (!silent) { setStationsError('Failed to load charging stations'); }
  } finally {
    if (!silent) { setLoading(false); }
  }
};
```
-/

structure RefreshState where
  loading : Bool
  stations : List Station
  stationsError : Option String
  lastRefresh : ℕ
deriving DecidableEq

/-- How the awaited `ApiService.getStations` call ends: resolved with
`success: true` and data, resolved with `success: false`, or rejected
(a thrown error). -/
inductive FetchOutcome where
  | success (data : List Station)
  | failure
  | thrown
deriving DecidableEq

/-- `fetchStations` as a state transformer over the component state it
touches; `now` stands for `new Date()`. -/
def fetchStations (silent : Bool) (outcome : FetchOutcome) (now : ℕ)
    (s : RefreshState) : RefreshState :=
  let s1 := if silent then s else { s with loading := true }
  let s2 := match outcome with
    | .success data =>
      { s1 with stations := data, stationsError := none, lastRefresh := now }
    | .failure => { s1 with stationsError := some "Failed to load charging stations" }
    | .thrown =>
      if silent then s1
      else { s1 with stationsError := some "Failed to load charging stations" }
  if silent then s2 else { s2 with loading := false }

/-! ## Concrete fixtures (the two mock stations of the component's test
suite, plus a near-origin station and criteria records) -/

def downtownStation : Station :=
  { id := "507f1f77bcf86cd799439011"
    name := "Downtown EV Hub"
    address := ⟨"123 Main St", "Vancouver", "BC", "V6B 1A1", "Canada"⟩
    coordinates := (-123.1207, 49.2827)
    connectorTypes := [⟨"CCS", 50, 2, 1⟩, ⟨"CHAdeMO", 50, 1, 1⟩]
    pricing := ⟨0.35, "CAD"⟩
    totalPorts := 3
    availablePorts := 2
    rating := 4.5
    amenities := ["WiFi", "Parking"] }

def mallStation : Station :=
  { id := "507f1f77bcf86cd799439012"
    name := "Mall Charging Station"
    address := ⟨"456 Shopping Ave", "Vancouver", "BC", "V6B 2B2", "Canada"⟩
    coordinates := (-123.1307, 49.2927)
    connectorTypes := [⟨"Tesla", 120, 4, 0⟩]
    pricing := ⟨0.40, "CAD"⟩
    totalPorts := 4
    availablePorts := 0
    rating := 4.2
    amenities := ["Food Court", "Restrooms"] }

/-- A station 0.004 degrees of longitude east of the origin, on the equator:
about 445 metres away from `originLocation`. -/
def nearbyStation : Station :=
  { id := "near-1"
    name := "Origin Charging"
    address := ⟨"1 Null Island Way", "Atlantis", "AT", "00000", "None"⟩
    coordinates := (0.004, 0)
    connectorTypes := [⟨"CCS", 50, 2, 1⟩]
    pricing := ⟨0.35, "USD"⟩
    totalPorts := 2
    availablePorts := 1
    rating := 4
    amenities := [] }

def originLocation : UserLocation := ⟨0, 0⟩

/-- A minimal station template for the sorting examples. -/
def plainStation (id : String) (perKwh : ℚ) : Station :=
  { id := id
    name := id
    address := ⟨"1 Main St", "Vancouver", "BC", "V6B 1A1", "Canada"⟩
    coordinates := (0, 0)
    connectorTypes := [⟨"CCS", 50, 1, 1⟩]
    pricing := ⟨perKwh, "CAD"⟩
    totalPorts := 1
    availablePorts := 1
    rating := 4
    amenities := [] }

/-- The three per-kWh prices of the spec's sorting example scenario. -/
def stationPer40 : Station := plainStation "per40" 0.40
def stationPer25 : Station := plainStation "per25" 0.25
def stationPer35 : Station := plainStation "per35" 0.35

/-- The component's initial filter state: empty search, no connector
selection, `maxDistance = 100`, `priceRange = [0, 1]`, `minRating = 0`. -/
def defaultCriteria : FilterCriteria :=
  { debouncedSearchQuery := ""
    selectedConnectorTypes := []
    maxDistance := (100 : ℚ)
    priceRange := (0, 1)
    minRating := 0 }

/-- Empty criteria with the distance cutoff disabled (`maxDistance = ∞`). -/
def emptyCriteria : FilterCriteria :=
  { debouncedSearchQuery := ""
    selectedConnectorTypes := []
    maxDistance := ⊤
    priceRange := (0, 1)
    minRating := 0 }

/-- Empty criteria except `selectedConnectorTypes = ["Tesla"]`. -/
def teslaCriteria : FilterCriteria :=
  { debouncedSearchQuery := ""
    selectedConnectorTypes := ["Tesla"]
    maxDistance := ⊤
    priceRange := (0, 1)
    minRating := 0 }

/-! ## Theorems -/

/-- Branch lemma: `available = 0` takes the first return. -/
theorem getAvailabilityStatus_zero (total : ℚ) :
    getAvailabilityStatus 0 total = .unavailable := by
  simp [getAvailabilityStatus]

/-- Branch lemma: nonzero `available` with ratio above one half. -/
theorem getAvailabilityStatus_of_gt {available total : ℚ} (h0 : available ≠ 0)
    (h1 : available / total > 1/2) :
    getAvailabilityStatus available total = .available := by
  unfold getAvailabilityStatus
  rw [if_neg h0, if_pos h1]

/-- Branch lemma: nonzero `available` with ratio at most one half. -/
theorem getAvailabilityStatus_of_le {available total : ℚ} (h0 : available ≠ 0)
    (h1 : ¬ available / total > 1/2) :
    getAvailabilityStatus available total = .limited := by
  unfold getAvailabilityStatus
  rw [if_neg h0, if_neg h1]

/-- C4: for every (available, total) with total > 0 the availability
classifier returns exactly one of the three statuses; it returns
`unavailable` iff available = 0; it returns `available` when
available/total > 1/2 and `limited` when 0 < available/total ≤ 1/2; and on
the concrete examples, (0,3) classifies as unavailable, (2,3) as available,
and (1,3) as limited. -/
theorem getAvailabilityStatus_spec (available total : ℚ) (ht : 0 < total) :
    (getAvailabilityStatus available total = .available ∨
     getAvailabilityStatus available total = .limited ∨
     getAvailabilityStatus available total = .unavailable) ∧
    (getAvailabilityStatus available total = .unavailable ↔ available = 0) ∧
    (available / total > 1/2 → getAvailabilityStatus available total = .available) ∧
    (0 < available / total ∧ available / total ≤ 1/2 →
      getAvailabilityStatus available total = .limited) ∧
    getAvailabilityStatus 0 3 = .unavailable ∧
    getAvailabilityStatus 2 3 = .available ∧
    getAvailabilityStatus 1 3 = .limited := by
  refine ⟨?_, ?_, ?_, ?_, getAvailabilityStatus_zero 3,
    getAvailabilityStatus_of_gt (by norm_num) (by norm_num),
    getAvailabilityStatus_of_le (by norm_num) (by norm_num)⟩
  · cases h : getAvailabilityStatus available total <;> simp
  · constructor
    · intro h
      by_contra h0
      by_cases h1 : available / total > 1/2
      · rw [getAvailabilityStatus_of_gt h0 h1] at h
        exact AvailabilityStatus.noConfusion h
      · rw [getAvailabilityStatus_of_le h0 h1] at h
        exact AvailabilityStatus.noConfusion h
    · rintro rfl
      exact getAvailabilityStatus_zero total
  · intro h1
    have h0 : available ≠ 0 := by
      rintro rfl
      rw [zero_div] at h1
      norm_num at h1
    exact getAvailabilityStatus_of_gt h0 h1
  · rintro ⟨hpos, hle⟩
    have h0 : available ≠ 0 := by
      rintro rfl
      rw [zero_div] at hpos
      norm_num at hpos
    exact getAvailabilityStatus_of_le h0 (not_lt.mpr hle)

theorem getAvailabilityStatus_spec_witness :
    (0 : ℚ) < 3 ∧ getAvailabilityStatus 2 3 = .available :=
  ⟨by norm_num, ((getAvailabilityStatus_spec 2 3 (by norm_num)).2.2.2.2.2).1⟩

/-- C8: the classifier needs no division for available = 0: the input (0, 0)
returns `unavailable` through the first branch, and indeed the result for
available = 0 does not depend on total at all, so the ratio branch is
unreachable there. -/
theorem getAvailabilityStatus_total_zero :
    getAvailabilityStatus 0 0 = .unavailable ∧
    ∀ total : ℚ, getAvailabilityStatus 0 total = .unavailable :=
  ⟨getAvailabilityStatus_zero 0, getAvailabilityStatus_zero⟩

/-- C10: `availability` is a distinct value of the `sortBy` state type, but
the sort comparator has no case for it: through the `default:` branch the
pipeline output is identical to sorting by `distance`. -/
theorem sortBy_availability_defaults_to_distance :
    SortKey.availability ≠ SortKey.distance ∧
    ∀ (stations : List Station) (crit : FilterCriteria)
      (userLocation : Option UserLocation),
      filteredChargers stations crit userLocation .availability =
        filteredChargers stations crit userLocation .distance := by
  refine ⟨by decide, fun stations crit userLocation => ?_⟩
  have h : sortComparatorLE .availability = sortComparatorLE .distance := by
    funext a b
    rfl
  simp only [filteredChargers, rankStations, h]

/-- C3 as stated fails on the code: a silent fetch that resolves with
`success: false` still sets the stations error (the `else` branch is not
guarded by `silent`; only the `catch` branch is). Starting from a clean
state, the error state changes. -/
theorem silent_resolved_failure_sets_error :
    (fetchStations true .failure 1 ⟨false, [], none, 0⟩).stationsError ≠
      (⟨false, [], none, 0⟩ : RefreshState).stationsError := by
  decide

/-- C3 amended: a thrown error during a silent refresh is swallowed (the
entire state, the error included, is unchanged), but a silent fetch that
resolves with `success: false` does set the retryable error message, exactly
as a visible-mode failure of either kind does. -/
theorem fetchStations_error_handling :
    (∀ (now : ℕ) (s : RefreshState), fetchStations true .thrown now s = s) ∧
    (∀ (now : ℕ) (s : RefreshState),
      (fetchStations true .failure now s).stationsError =
        some "Failed to load charging stations") ∧
    (∀ (now : ℕ) (s : RefreshState),
      (fetchStations false .failure now s).stationsError =
        some "Failed to load charging stations") ∧
    (∀ (now : ℕ) (s : RefreshState),
      (fetchStations false .thrown now s).stationsError =
        some "Failed to load charging stations") :=
  ⟨fun _ _ => rfl, fun _ _ => rfl, fun _ _ => rfl, fun _ _ => rfl⟩

/-- C1 as stated fails on the code: with `userLocation` absent and the
default (finite) 100 km `maxDistance`, a station that passes every text,
connector, rating and price predicate is nevertheless dropped — the
pipeline output is empty. -/
theorem no_location_still_drops_station :
    stationFilterPred defaultCriteria downtownStation = true ∧
    filteredChargers [downtownStation] defaultCriteria none .distance = [] := by
  have hpred : stationFilterPred defaultCriteria downtownStation = true := by
    norm_num [stationFilterPred, matchesTextSearch, defaultCriteria, downtownStation,
      min_def]
  refine ⟨hpred, ?_⟩
  unfold filteredChargers rankStations
  rw [List.filter_cons_of_pos hpred, List.filter_nil, List.map_cons, List.map_nil,
    List.filter_cons_of_neg, List.filter_nil, List.mergeSort_nil]
  simp [deriveDistance, defaultCriteria, top_le_iff]

/-- C1 amended: when `userLocation` is absent, every station surviving the
other predicates is assigned `distanceValue = Infinity`, and the distance
filter `distanceValue <= maxDistance` then drops every one of them whenever
`maxDistance` is finite, so the pipeline returns the empty list. -/
theorem filteredChargers_empty_of_no_location (stations : List Station)
    (crit : FilterCriteria) (sortBy : SortKey) (h : crit.maxDistance ≠ ⊤) :
    filteredChargers stations crit none sortBy = [] := by
  unfold filteredChargers rankStations
  have hfilter : ((stations.filter (stationFilterPred crit)).map
      (deriveDistance none)).filter
      (fun c => decide (c.distanceValue ≤ crit.maxDistance)) = [] := by
    rw [List.filter_eq_nil_iff]
    intro a ha
    rcases List.mem_map.mp ha with ⟨s, _, rfl⟩
    simp [deriveDistance, top_le_iff, h]
  rw [hfilter]
  exact List.mergeSort_nil

/-- The added fields never change the underlying station. -/
theorem deriveDistance_station (userLocation : Option UserLocation) (s : Station) :
    (deriveDistance userLocation s).station = s := by
  cases userLocation <;> rfl

/-- With `userLocation` absent the map step stores the `Infinity` placeholders. -/
theorem deriveDistance_none (s : Station) :
    deriveDistance none s = ⟨s, none, ⊤⟩ := rfl

/-- A station with non-negative rating and price passes the empty criteria. -/
theorem stationFilterPred_emptyCriteria {s : Station} (hr : 0 ≤ s.rating)
    (hp : 0 ≤ s.pricing.perKwh) :
    stationFilterPred emptyCriteria s = true := by
  have h1 : ¬ (s.rating < 0) := not_lt.mpr hr
  have h2 : ¬ (min s.pricing.perKwh 1 < 0) :=
    not_lt.mpr (le_min hp zero_le_one)
  have h3 : ¬ ((1 : ℚ) < min s.pricing.perKwh 1) :=
    not_lt.mpr (min_le_right _ _)
  unfold stationFilterPred matchesTextSearch
  simp [emptyCriteria, h1, h2, h3]

/-- The distance cutoff filter keeps everything when `maxDistance = ⊤`. -/
theorem filter_le_top (l : List DerivedStation) :
    l.filter (fun c => decide (c.distanceValue ≤ (⊤ : WithTop ℚ))) = l := by
  rw [List.filter_eq_self]
  intro a _
  simp

/-- With empty criteria the two filters are the identity, so the pipeline is
just the ranking of the distance-derived list. -/
theorem filteredChargers_emptyCriteria_eq (stations : List Station)
    (userLocation : Option UserLocation) (sortBy : SortKey)
    (h : ∀ s ∈ stations, 0 ≤ s.rating ∧ 0 ≤ s.pricing.perKwh) :
    filteredChargers stations emptyCriteria userLocation sortBy =
      rankStations sortBy (stations.map (deriveDistance userLocation)) := by
  unfold filteredChargers
  have h1 : stations.filter (stationFilterPred emptyCriteria) = stations := by
    rw [List.filter_eq_self]
    intro s hs
    exact stationFilterPred_emptyCriteria (h s hs).1 (h s hs).2
  have htop : emptyCriteria.maxDistance = ⊤ := rfl
  rw [h1, htop, filter_le_top]

/-- The membership identity behind C5, shared with the sorting example. -/
theorem filteredChargers_emptyCriteria_perm_aux (stations : List Station)
    (userLocation : Option UserLocation) (sortBy : SortKey)
    (h : ∀ s ∈ stations, 0 ≤ s.rating ∧ 0 ≤ s.pricing.perKwh) :
    ((filteredChargers stations emptyCriteria userLocation sortBy).map
      DerivedStation.station).Perm stations := by
  rw [filteredChargers_emptyCriteria_eq stations userLocation sortBy h]
  unfold rankStations
  refine ((List.mergeSort_perm _ _).map _).trans ?_
  rw [List.map_map]
  have hid : (DerivedStation.station ∘ deriveDistance userLocation) = id := by
    funext s
    exact deriveDistance_station userLocation s
  rw [hid, List.map_id]

/-- C5: with empty criteria — empty search text, no connector selection,
minRating 0, full price range [0,1] and max distance = ∞ — the pipeline
returns a list with the same membership as the input (a permutation; the
order may differ because of the sort). -/
theorem filteredChargers_empty_criteria_perm (stations : List Station)
    (userLocation : Option UserLocation) (sortBy : SortKey)
    (h : ∀ s ∈ stations, 0 ≤ s.rating ∧ 0 ≤ s.pricing.perKwh) :
    ((filteredChargers stations emptyCriteria userLocation sortBy).map
      DerivedStation.station).Perm stations :=
  filteredChargers_emptyCriteria_perm_aux stations userLocation sortBy h

theorem filteredChargers_empty_criteria_perm_witness :
    (∀ s ∈ [downtownStation], 0 ≤ s.rating ∧ 0 ≤ s.pricing.perKwh) ∧
    ((filteredChargers [downtownStation] emptyCriteria none .distance).map
      DerivedStation.station).Perm [downtownStation] := by
  have h : ∀ s ∈ [downtownStation], 0 ≤ s.rating ∧ 0 ≤ s.pricing.perKwh := by
    intro s hs
    rw [List.mem_singleton] at hs
    subst hs
    exact ⟨by norm_num [downtownStation], by norm_num [downtownStation]⟩
  exact ⟨h, filteredChargers_empty_criteria_perm [downtownStation] none .distance h⟩

theorem filteredChargers_empty_of_no_location_witness :
    defaultCriteria.maxDistance ≠ ⊤ ∧
    filteredChargers [mallStation] defaultCriteria none .price = [] :=
  ⟨by simp [defaultCriteria],
    filteredChargers_empty_of_no_location [mallStation] defaultCriteria .price
      (by simp [defaultCriteria])⟩

/-- Every comparator relation is transitive. -/
theorem sortComparatorLE_trans (k : SortKey) :
    ∀ a b c : DerivedStation, sortComparatorLE k a b → sortComparatorLE k b c →
      sortComparatorLE k a c := by
  intro a b c hab hbc
  cases k <;>
    simp only [sortComparatorLE, decide_eq_true_eq] at hab hbc ⊢
  · exact le_trans hab hbc
  · exact le_trans hab hbc
  · exact le_trans hbc hab
  · exact le_trans hab hbc

/-- Every comparator relation is total. -/
theorem sortComparatorLE_total (k : SortKey) :
    ∀ a b : DerivedStation, sortComparatorLE k a b || sortComparatorLE k b a := by
  intro a b
  cases k <;>
    simp only [sortComparatorLE, Bool.or_eq_true, decide_eq_true_eq] <;>
    exact le_total _ _

/-- Ranking by price sorts the per-kWh values ascending. -/
theorem rankStations_sorted_price (l : List DerivedStation) :
    ((rankStations .price l).map fun d => d.station.pricing.perKwh).Sorted (· ≤ ·) := by
  unfold rankStations
  rw [List.Sorted, List.pairwise_map]
  exact (List.sorted_mergeSort (sortComparatorLE_trans .price)
    (sortComparatorLE_total .price) l).imp
    (fun hab => by simpa [sortComparatorLE] using hab)

/-- Ranking by rating sorts the ratings descending. -/
theorem rankStations_sorted_rating (l : List DerivedStation) :
    ((rankStations .rating l).map fun d => d.station.rating).Sorted (· ≥ ·) := by
  unfold rankStations
  rw [List.Sorted, List.pairwise_map]
  exact (List.sorted_mergeSort (sortComparatorLE_trans .rating)
    (sortComparatorLE_total .rating) l).imp
    (fun hab => by simpa [sortComparatorLE] using hab)

/-- Ranking by distance sorts the distance values ascending. -/
theorem rankStations_sorted_distance (l : List DerivedStation) :
    ((rankStations .distance l).map fun d => d.distanceValue).Sorted (· ≤ ·) := by
  unfold rankStations
  rw [List.Sorted, List.pairwise_map]
  exact (List.sorted_mergeSort (sortComparatorLE_trans .distance)
    (sortComparatorLE_total .distance) l).imp
    (fun hab => by simpa [sortComparatorLE] using hab)

/-- Stability of the ranking step: a pair tied under the comparator keeps its
relative input order. -/
theorem rankStations_stable (k : SortKey) (l : List DerivedStation)
    (a b : DerivedStation) (hab : sortComparatorLE k a b)
    (hsub : [a, b].Sublist l) : [a, b].Sublist (rankStations k l) :=
  List.pair_sublist_mergeSort (sortComparatorLE_trans k)
    (sortComparatorLE_total k) hab hsub

/-- The spec's scenario E, proved for every input order by permutation plus
sortedness plus antisymmetry of `≤` on the price values. -/
theorem price_example (l : List Station)
    (hperm : l.Perm [stationPer40, stationPer25, stationPer35]) :
    ((filteredChargers l emptyCriteria none .price).map
      fun d => d.station.pricing.perKwh) = [0.25, 0.35, 0.40] := by
  have hmem : ∀ s ∈ l, 0 ≤ s.rating ∧ 0 ≤ s.pricing.perKwh := by
    intro s hs
    have h3 := hperm.subset hs
    simp only [List.mem_cons, List.not_mem_nil, or_false] at h3
    rcases h3 with rfl | rfl | rfl <;>
      exact ⟨by norm_num [stationPer40, stationPer25, stationPer35, plainStation],
        by norm_num [stationPer40, stationPer25, stationPer35, plainStation]⟩
  have hsorted : ((filteredChargers l emptyCriteria none .price).map
      fun d => d.station.pricing.perKwh).Sorted (· ≤ ·) := by
    rw [filteredChargers_emptyCriteria_eq l none .price hmem]
    exact rankStations_sorted_price _
  have hp : ((filteredChargers l emptyCriteria none .price).map
      fun d => d.station.pricing.perKwh).Perm [(0.25 : ℚ), 0.35, 0.40] := by
    have h1 := (filteredChargers_emptyCriteria_perm_aux l none .price hmem).map
      (fun s => s.pricing.perKwh)
    rw [List.map_map] at h1
    refine h1.trans ?_
    refine (hperm.map (fun s => s.pricing.perKwh)).trans ?_
    show [(0.40 : ℚ), 0.25, 0.35].Perm [(0.25 : ℚ), 0.35, 0.40]
    exact (List.Perm.swap _ _ _).trans (List.Perm.cons _ (List.Perm.swap _ _ _))
  exact List.eq_of_perm_of_sorted hp hsorted
    (by norm_num [List.sorted_cons])

/-- C6: the ranking step is a stable sort: price ranks ascending by per-kWh
price (and over stations priced 0.40/0.25/0.35 the output prices are
[0.25, 0.35, 0.40] for every input order), rating ranks descending, distance
ranks ascending by the parsed distance value, and any two stations tied
under the sort comparator keep their relative input order. -/
theorem ranking_sort_spec :
    (∀ l : List DerivedStation,
      ((rankStations .price l).map fun d => d.station.pricing.perKwh).Sorted (· ≤ ·)) ∧
    (∀ l : List DerivedStation,
      ((rankStations .rating l).map fun d => d.station.rating).Sorted (· ≥ ·)) ∧
    (∀ l : List DerivedStation,
      ((rankStations .distance l).map fun d => d.distanceValue).Sorted (· ≤ ·)) ∧
    (∀ (k : SortKey) (l : List DerivedStation) (a b : DerivedStation),
      sortComparatorLE k a b → sortComparatorLE k b a →
      [a, b].Sublist l → [a, b].Sublist (rankStations k l)) ∧
    (∀ l : List Station, l.Perm [stationPer40, stationPer25, stationPer35] →
      ((filteredChargers l emptyCriteria none .price).map
        fun d => d.station.pricing.perKwh) = [0.25, 0.35, 0.40]) :=
  ⟨rankStations_sorted_price, rankStations_sorted_rating, rankStations_sorted_distance,
    fun k l a b hab _hba hsub => rankStations_stable k l a b hab hsub,
    price_example⟩

theorem ranking_sort_spec_witness :
    ([stationPer40, stationPer25, stationPer35].Perm
      [stationPer40, stationPer25, stationPer35]) ∧
    ((filteredChargers [stationPer40, stationPer25, stationPer35]
      emptyCriteria none .price).map fun d => d.station.pricing.perKwh) =
      [0.25, 0.35, 0.40] :=
  ⟨List.Perm.refl _, ranking_sort_spec.2.2.2.2 _ (List.Perm.refl _)⟩

/-- C7: the connector filter is independent of port availability: with no
search text and `selectedConnectorTypes = ["Tesla"]`, over the
Downtown/Mall pair where only Mall has a Tesla connector, the pipeline
returns exactly the Mall station although Mall's availablePorts is 0; and
the filter predicate does not read availablePorts at all. -/
theorem connector_filter_ignores_availability :
    mallStation.availablePorts = 0 ∧
    (filteredChargers [downtownStation, mallStation] teslaCriteria none
      .distance).map DerivedStation.station = [mallStation] ∧
    (∀ (crit : FilterCriteria) (s : Station) (n : ℕ),
      stationFilterPred crit { s with availablePorts := n } =
        stationFilterPred crit s) := by
  refine ⟨rfl, ?_, fun crit s n => rfl⟩
  have hd : stationFilterPred teslaCriteria downtownStation = false := by
    norm_num [stationFilterPred, matchesTextSearch, teslaCriteria, downtownStation,
      List.any_cons]
    exact ⟨by decide, by decide⟩
  have hm : stationFilterPred teslaCriteria mallStation = true := by
    norm_num [stationFilterPred, matchesTextSearch, teslaCriteria, mallStation,
      List.any_cons, min_def]
  unfold filteredChargers rankStations
  rw [List.filter_cons_of_neg (by simp [hd]), List.filter_cons_of_pos hm,
    List.filter_nil, List.map_cons, List.map_nil, deriveDistance_none,
    List.filter_cons_of_pos (by simp [teslaCriteria]), List.filter_nil,
    List.mergeSort_singleton, List.map_cons, List.map_nil]

/-- Only the positive-x branch of `Math.atan2` is exercised here. -/
theorem atan2_of_pos (y x : ℝ) (hx : 0 < x) : atan2 y x = Real.arctan (y / x) := by
  unfold atan2
  rw [if_pos hx]

/-- The haversine distance from a point to itself is zero. -/
theorem haversineDistanceKm_self (lat lon : ℝ) :
    haversineDistanceKm lat lon lat lon = 0 := by
  unfold haversineDistanceKm
  simp [atan2, Real.sqrt_one]

/-- C9: the distance from any coordinate pair to itself is zero, and both
display conventions format it as their zero-case string — "0 m" for the
kilometre/metre convention and "0 ft" for the mile/foot convention — never
an empty or NaN result. -/
theorem distance_self_zero (lat lon : ℝ) :
    haversineDistanceKm lat lon lat lon = 0 ∧
    calculateDistanceKmM lat lon lat lon = "0 m" ∧
    calculateDistanceMiFt lat lon lat lon = "0 ft" := by
  have h := haversineDistanceKm_self lat lon
  refine ⟨h, ?_, ?_⟩
  · simp only [calculateDistanceKmM, h, toFixed0, zero_mul]
    rw [if_pos (show (0:ℝ) < 1 by norm_num), round_zero]
    rfl
  · simp only [calculateDistanceMiFt, h, toFixed0, zero_mul]
    rw [if_pos (show (0:ℝ) < 1 by norm_num), round_zero]
    rfl

/-- On the equator, a small positive eastward offset of δ degrees gives a
closed-form haversine distance: the arguments collapse to
`2 · arctan (tan t) = 2t` with `t = δπ/360`. -/
theorem haversineDistanceKm_equator {δ : ℝ} (h0 : 0 < δ)
    (h2 : δ * Real.pi / 360 < Real.pi / 2) :
    haversineDistanceKm 0 0 0 δ = 6371 * (δ * Real.pi / 180) := by
  have hπ := Real.pi_pos
  have ht0 : 0 < δ * Real.pi / 360 := by positivity
  have hsin : 0 ≤ Real.sin (δ * Real.pi / 360) :=
    Real.sin_nonneg_of_nonneg_of_le_pi ht0.le (by linarith)
  have hcos : 0 < Real.cos (δ * Real.pi / 360) :=
    Real.cos_pos_of_mem_Ioo ⟨by linarith, h2⟩
  unfold haversineDistanceKm
  simp only [sub_self, sub_zero, zero_mul, zero_div, Real.sin_zero, Real.cos_zero,
    mul_zero, zero_add, one_mul]
  rw [show δ * Real.pi / 180 / 2 = δ * Real.pi / 360 by ring]
  rw [Real.sqrt_mul_self hsin]
  rw [show 1 - Real.sin (δ * Real.pi / 360) * Real.sin (δ * Real.pi / 360) =
      Real.cos (δ * Real.pi / 360) * Real.cos (δ * Real.pi / 360) by
    nlinarith [Real.sin_sq_add_cos_sq (δ * Real.pi / 360)]]
  rw [Real.sqrt_mul_self hcos.le]
  rw [atan2_of_pos _ _ hcos, ← Real.tan_eq_sin_div_cos,
    Real.arctan_tan (by linarith) h2]
  ring

/-- The fixture's haversine distance in closed form. -/
theorem nearby_haversine_val :
    haversineDistanceKm 0 0 0 0.004 = 6371 * (0.004 * Real.pi / 180) :=
  haversineDistanceKm_equator (by norm_num) (by linarith [Real.pi_pos])

/-- `(distance * 1000).toFixed(0)` rounds the fixture's metre count to 445. -/
theorem nearby_round :
    round ((6371 * (0.004 * Real.pi / 180)) * 1000) = 445 := by
  have hl := Real.pi_gt_d6
  have hu := Real.pi_lt_d6
  rw [round_eq, Int.floor_eq_iff]
  constructor
  · push_cast
    linarith
  · push_cast
    linarith

/-- The formatted display string for the fixture: the sub-kilometre branch
renders metres. -/
theorem nearby_distance_string :
    calculateDistanceKmM 0 0 0 0.004 = "445 m" := by
  simp only [calculateDistanceKmM, toFixed0]
  rw [nearby_haversine_val]
  rw [if_pos (show 6371 * (0.004 * Real.pi / 180) < 1 by linarith [Real.pi_lt_d6])]
  rw [nearby_round]
  rfl

/-- The map step at the fixture: the re-parsed numeric value is the metre
count 445, not a kilometre value. -/
theorem deriveDistance_nearby :
    deriveDistance (some originLocation) nearbyStation =
      ⟨nearbyStation, some "445 m", ((445 : ℚ) : WithTop ℚ)⟩ := by
  unfold deriveDistance
  simp only [originLocation, nearbyStation, Rat.cast_zero, Rat.cast_ofScientific]
  rw [nearby_distance_string]
  rw [show parseFloatQ (stripNonDigitDot "445 m") = 445 from by decide]

/-- C2 fails on the code: the numeric `distanceValue` is re-parsed from the
formatted string, so a station under 1 km away gets its METRE count compared
against the kilometre cutoff. Here the station is ≈0.445 km away (well under
the 100 km cutoff, so the claim says it is kept), its parsed value is 445,
and the pipeline drops it. -/
theorem distance_filter_unit_bug :
    haversineDistanceKm 0 0 0 0.004 ≤ 100 ∧
    stationFilterPred defaultCriteria nearbyStation = true ∧
    (deriveDistance (some originLocation) nearbyStation).distanceValue =
      ((445 : ℚ) : WithTop ℚ) ∧
    filteredChargers [nearbyStation] defaultCriteria (some originLocation)
      .distance = [] := by
  have hpred : stationFilterPred defaultCriteria nearbyStation = true := by
    norm_num [stationFilterPred, matchesTextSearch, defaultCriteria, nearbyStation,
      min_def]
  refine ⟨?_, hpred, by rw [deriveDistance_nearby], ?_⟩
  · rw [nearby_haversine_val]
    linarith [Real.pi_lt_d6]
  · have hneg : ¬ (((445 : ℚ) : WithTop ℚ) ≤ defaultCriteria.maxDistance) := by
      have hmd : defaultCriteria.maxDistance = ((100 : ℚ) : WithTop ℚ) := rfl
      rw [hmd, WithTop.coe_le_coe]
      norm_num
    unfold filteredChargers rankStations
    rw [List.filter_cons_of_pos hpred, List.filter_nil, List.map_cons, List.map_nil,
      deriveDistance_nearby,
      List.filter_cons_of_neg (by simpa using hneg),
      List.filter_nil, List.mergeSort_nil]

end EVFinder
